import Mathlib

/-!
Verification development for the VideoArtifactProcessingEngine repository.

This file gives a shallow embedding, in Lean 4, of the orchestration code of
the repository (the per-message pipeline in `src/main.py`, the queue consumer
in `src/video_artifact_processing_engine/sqs_handler.py`, the repository
write path in `src/video_artifact_processing_engine/aws/db_operations.py`,
the configuration defaults in `src/video_artifact_processing_engine/config.py`
and the per-quote clip decision in
`src/video_artifact_processing_engine/tools/video_quote_cutting_process.py`),
and proves or refutes the frozen claims about it.

Modelling conventions, used throughout:
* Python `None` is modelled by `Option.none`; Python truthiness of an
  optional string ("falsy" for `None` and for the empty string) is
  `pyTruthy`.
* `str(x)` applied to an optional string is `pyStr` (Python renders `None`
  as the string "None").
* The `processingInfo` JSON map of an episode is abstracted to the four
  boolean keys the code reads and writes (`chunkingDone`, `quotingDone`,
  `videoChunkingDone`, `videoQuotingDone`); a missing key and a key holding
  a falsy value are identified, exactly as the code's `bool(pi.get(k))`
  does.  An absent row, a SQL NULL and an empty JSON object are all
  `Option.none` (all are falsy for the code's `if not processing_info`
  check, and all are treated as `'{}'::jsonb` by the flag update's
  COALESCE).
* Timestamps compared against a validation marker are epoch integers;
  wall-clock times used for clip windows are rationals (the Python floats
  play the role of real numbers in all the compared code paths; no claim
  depends on binary rounding).
* External effects (S3 download, ffmpeg, uploads) are inputs to the
  embedded functions: the functions record the decisions the Python code
  makes from their results.
-/

namespace VAPE

/-- Python truthiness of an optional string: `None` and `""` are falsy. -/
def pyTruthy : Option String → Bool
  | none => false
  | some s => s ≠ ""

/-- Python `str()` of an optional string: `str(None) = "None"`. -/
def pyStr : Option String → String
  | none => "None"
  | some s => s

/-- Python `str.lower()` (over the character list, so that concrete
evaluations reduce). -/
def pyLower (s : String) : String := ⟨s.data.map Char.toLower⟩

/-- Python `str.strip()`: drop whitespace from both ends. -/
def pyStrip (s : String) : String :=
  ⟨((s.data.dropWhile Char.isWhitespace).reverse.dropWhile Char.isWhitespace).reverse⟩

/-- The four keys of the `processingInfo` JSONB map that the engine reads
and writes.  A key that is absent from the map is represented by `false`
(the code only ever tests `bool(pi.get(key))` truthiness). -/
structure PInfo where
  chunkingDone : Bool
  quotingDone : Bool
  videoChunkingDone : Bool
  videoQuotingDone : Bool
deriving DecidableEq, Repr

/-- The empty `processingInfo` object (`'{}'::jsonb`): every key reads falsy. -/
def PInfo.empty : PInfo := ⟨false, false, false, false⟩

/-- A quote row, restricted to the columns the orchestration code reads
(`main.py` and `sqs_handler.py` access these attributes of the model
object).  `masterPlaylistPath` is the `videoMasterPlaylistPath` entry of
the row's `additionalData` JSON; `updatedAt` is an epoch timestamp. -/
structure QuoteRow where
  quoteId : String
  contentType : Option String
  masterPlaylistPath : Option String
  updatedAt : Option Int
  quoteText : Option String
  contextText : Option String
  quoteLength : Option ℚ
  quoteStartMs : Option Int
  quoteEndMs : Option Int
  quoteAudioUrl : Option String
deriving DecidableEq, Repr

/-- A short (chunk) row, restricted to the columns the orchestration code
reads. -/
structure ShortRow where
  chunkId : String
  isRemovedChunk : Bool
  startMs : Option Int
  endMs : Option Int
  chunkLength : Option ℚ
  transcript : Option String
  contentType : Option String
  masterPlaylistPath : Option String
  chunkAudioUrl : Option String
  updatedAt : Option Int
deriving DecidableEq, Repr

/-- An episode row, restricted to the columns the orchestration code reads.
`videoLocation` is the `videoLocation` entry of the row's `additionalData`
JSON (the only entry `main.py` reads).  `processingInfo = none` stands for
a SQL NULL or an empty JSON object (both falsy in
`get_episode_processing_status` callers, both `'{}'` under COALESCE). -/
structure EpisodeRow where
  episodeId : String
  episodeTitle : Option String
  channelName : Option String
  contentType : Option String
  processingInfo : Option PInfo
  videoLocation : Option String
deriving DecidableEq, Repr

/-- The relational store as the engine sees it for one episode: the episode
row (if any) plus its quote and short rows. -/
structure Store where
  episode : Option EpisodeRow
  quotes : List QuoteRow
  shorts : List ShortRow
deriving DecidableEq, Repr

/-! ### Predicates from `main.py` (lines 526-571) -/

/-- `main._has_master_playlist`: the `videoMasterPlaylistPath` entry is a
string with non-empty strip. -/
def hasMasterPlaylist (mp : Option String) : Bool :=
  match mp with
  | some s => (pyStrip s).length > 0
  | none => false

/-- `main._is_valid_chunk`: not removed, and duration at least one second.
The duration is `(end_ms - start_ms)/1000` when both bounds are present,
else the `chunk_length` attribute (`None` counting as 0). -/
def isValidChunk (c : ShortRow) : Bool :=
  if c.isRemovedChunk then false
  else
    match c.startMs, c.endMs with
    | some s, some e => ((e : ℚ) - (s : ℚ)) / 1000 ≥ 1
    | _, _ => c.chunkLength.getD 0 ≥ 1

/-- `main._is_quote_processed`: `content_type` lowercases to `"video"` and
the quote has a non-empty `videoMasterPlaylistPath`. -/
def isQuoteProcessed (q : QuoteRow) : Bool :=
  pyLower (pyStr q.contentType) == "video" && hasMasterPlaylist q.masterPlaylistPath

/-- `main._is_chunk_processed`: valid chunk, `content_type` lowercases to
`"video"`, and a non-empty `videoMasterPlaylistPath`. -/
def isChunkProcessed (c : ShortRow) : Bool :=
  isValidChunk c && pyLower (pyStr c.contentType) == "video"
    && hasMasterPlaylist c.masterPlaylistPath

/-- `main._all_quotes_processed`: every quote of the list is processed
(vacuously true on the empty list, as in the Python `all`). -/
def allQuotesProcessed (qs : List QuoteRow) : Bool :=
  qs.all isQuoteProcessed

/-- `main._all_chunks_processed`: every *valid* chunk of the list is
processed (invalid chunks are filtered out first). -/
def allChunksProcessed (cs : List ShortRow) : Bool :=
  (cs.filter isValidChunk).all isChunkProcessed

/-! ### Repository write path (`aws/db_operations.py`) -/

/-- The row image diffed and written by `update_episode_item`
(`aws/db_operations.py` lines 663-714).  `additionalData` is abstracted to
its serialized form (the code compares the whole dicts for equality and
writes the serialization). -/
structure EpisodeItemImage where
  processingInfo : Option PInfo
  contentType : Option String
  additionalData : Option String
deriving DecidableEq, Repr

/-- `update_episode_item`, the "minimal" episode update: inside the
transaction the current row is read, each of the three fields is compared
with the in-memory episode object, and every field that differs (and is
not `None` in memory) is overwritten with the in-memory value.  In
particular the *whole* in-memory `processingInfo` object replaces the
stored one whenever they differ.  (The advisory lock, the retry loop and
the `updatedAt` touch do not affect which values are written.) -/
def updateEpisodeItemTxn (mem cur : EpisodeItemImage) : EpisodeItemImage :=
  { processingInfo :=
      if mem.processingInfo ≠ none ∧ mem.processingInfo ≠ cur.processingInfo then
        mem.processingInfo
      else cur.processingInfo
    contentType :=
      if mem.contentType ≠ none ∧ mem.contentType ≠ cur.contentType then
        mem.contentType
      else cur.contentType
    additionalData :=
      if mem.additionalData ≠ none ∧ mem.additionalData ≠ cur.additionalData then
        mem.additionalData
      else cur.additionalData }

/-- `update_episode_processing_flags` (`aws/db_operations.py` lines
716-797), applied to the stored `processingInfo`: when at least one flag
argument is provided, the stored object (COALESCEd to `'{}'`) has
`videoQuotingDone` and/or `videoChunkingDone` replaced by the provided
values via `jsonb_set`; all other keys are untouched.  When both arguments
are `None` the function returns immediately without writing. -/
def applyFlagUpdate (pi : Option PInfo) (q c : Option Bool) : Option PInfo :=
  if q = none ∧ c = none then pi
  else
    let base := pi.getD PInfo.empty
    let base := match q with
      | some v => { base with videoQuotingDone := v }
      | none => base
    let base := match c with
      | some v => { base with videoChunkingDone := v }
      | none => base
    some base

/-- The stored row used in the C1 evaluation: `videoQuotingDone` has been
advanced to true (by a concurrent flag update), `chunkingDone` and
`quotingDone` are true. -/
def c1CurrentRow : EpisodeItemImage :=
  { processingInfo := some ⟨true, true, false, true⟩
    contentType := some "Video"
    additionalData := none }

/-- The in-memory episode used in the C1 evaluation: the `processingInfo`
copy read before the concurrent advance (so `videoQuotingDone` is still
false there), with `content_type` just promoted to `"video"` — exactly the
object `main.py` lines 890-898 pass to `update_episode_item`. -/
def c1MemEpisode : EpisodeItemImage :=
  { processingInfo := some ⟨true, true, false, false⟩
    contentType := some "video"
    additionalData := none }

/-! ### Queue consumer (`sqs_handler.py`) -/

/-- The queue-side effects the consumer can issue for one message.
`requeue` carries the body and the `DelaySeconds` value
(`requeue_message` always sends `DelaySeconds=60*3`). -/
inductive SqsAction where
  | deleteMsg (receiptHandle : String)
  | requeue (body : String) (delaySeconds : Nat)
  | emitNotReadyExceeded (episodeId : String)
deriving DecidableEq, Repr

/-- The in-memory `not_ready_counts` dictionary. -/
abbrev NotReadyCounts := List (String × Nat)

/-- Dictionary read with default 0 (`self.not_ready_counts.get(episode_id, 0)`). -/
def getCount (counts : NotReadyCounts) (epId : String) : Nat :=
  ((counts.find? (fun p => p.1 = epId)).map Prod.snd).getD 0

/-- Dictionary write (`self.not_ready_counts[episode_id] = current`). -/
def setCount (counts : NotReadyCounts) (epId : String) (v : Nat) : NotReadyCounts :=
  if counts.any (fun p => p.1 = epId) then
    counts.map (fun p => if p.1 = epId then (epId, v) else p)
  else counts ++ [(epId, v)]

/-- `SQSPoller._reset_not_ready`: delete the entry if present. -/
def resetNotReady (counts : NotReadyCounts) (epId : String) : NotReadyCounts :=
  counts.filter (fun p => p.1 ≠ epId)

/-- `get_episode_processing_status` on the store: `None` when the row is
absent, else the row's `processingInfo` (`none` also standing for an empty
object, which every caller coalesces away). -/
def getProcessingStatus (st : Store) : Option PInfo :=
  st.episode.bind (fun e => e.processingInfo)

/-- `SQSPoller._both_video_flags_done`: read `processingInfo` back from the
store (`or {}` on a falsy read) and require both video flags true. -/
def bothVideoFlagsDone (st : Store) : Bool :=
  let pi := (getProcessingStatus st).getD PInfo.empty
  pi.videoChunkingDone && pi.videoQuotingDone

/-- `SQSPoller._is_valid_quote` (lines 427-443): `quote` and `context`
must be truthy; the duration is `quote_length` when that attribute is not
`None`, else derived from `quote_start_ms`/`quote_end_ms`, else 0; it must
be at least one second. -/
def isValidQuoteSqs (q : QuoteRow) : Bool :=
  if ¬ pyTruthy q.quoteText ∨ ¬ pyTruthy q.contextText then false
  else
    let dur : ℚ :=
      match q.quoteLength with
      | some l => l
      | none =>
        match q.quoteStartMs, q.quoteEndMs with
        | some s, some e => ((e : ℚ) - (s : ℚ)) / 1000
        | _, _ => 0
    dur ≥ 1

/-- `SQSPoller._is_quote_processed` (note: unlike `main.py`, the consumer
keys on `quote_audio_url`): the audio URL is truthy and `content_type`
lowercases to `"video"`. -/
def isQuoteProcessedSqs (q : QuoteRow) : Bool :=
  pyTruthy q.quoteAudioUrl && pyLower (pyStr q.contentType) == "video"

/-- `SQSPoller._is_chunk_processed`: valid chunk, truthy `chunk_audio_url`,
`content_type` lowercases to `"video"`. -/
def isChunkProcessedSqs (c : ShortRow) : Bool :=
  isValidChunk c && pyTruthy c.chunkAudioUrl && pyLower (pyStr c.contentType) == "video"

/-- Write the provided flags into the episode row of the store (the store
image of a successful `update_episode_processing_flags`).  When the row is
absent the SQL UPDATE matches no row and the call raises; the caller sees
a failure. -/
def storeSetFlags (st : Store) (q c : Option Bool) : Store :=
  match st.episode with
  | none => st
  | some e =>
    { st with episode := some { e with processingInfo := applyFlagUpdate e.processingInfo q c } }

/-- `SQSPoller._ensure_flags_after_success` (lines 445-492) as a store
transformer returning the new store and the boolean result.  Lock
contention and transient write failures are collapsed: the flag write, when
attempted against an existing row, is modelled as succeeding on the first
of the three attempts (the claims under verification do not concern the
retry loop).  If the row is absent the write raises on every attempt and
the function returns `false`. -/
def ensureFlagsAfterSuccess (st : Store) : Store × Bool :=
  let pi := (getProcessingStatus st).getD PInfo.empty
  if pi.videoQuotingDone && pi.videoChunkingDone then (st, true)
  else
    let relQuotes := st.quotes.filter isValidQuoteSqs
    let relShorts := st.shorts.filter isValidChunk
    let allQuotesDone := relQuotes.all isQuoteProcessedSqs
    let allShortsDone := relShorts.all isChunkProcessedSqs
    let wantQ := allQuotesDone && !pi.videoQuotingDone
    let wantC := allShortsDone && !pi.videoChunkingDone
    if ¬ (wantQ ∨ wantC) then (st, true)
    else
      match st.episode with
      | none => (st, false)
      | some _ =>
        (storeSetFlags st (if wantQ then some true else none)
          (if wantC then some true else none), true)

/-- The handler outcome sum type (`'Success' | 'NotReady' | 'Failed'`). -/
inductive Outcome where
  | success
  | notReady
  | failed
deriving DecidableEq, Repr

/-- Outcome routing of `SQSPoller._process_message_batch` (lines 360-396)
for one validated message: returns the store after the ensure-flags step,
the new NotReady counters, and the queue actions issued, in order.
`Success`: run the ensure-flags step, then delete+requeue unless it
returned true *and* both video flags read back true, in which case delete
and reset the counter.  `NotReady`: increment the counter; at 3, emit the
alarm metric, delete without requeue and reset; below 3, delete and
requeue with the fixed 180-second delay.  `Failed`: no action (the message
stays until its visibility lapses). -/
def routeOutcome (st : Store) (counts : NotReadyCounts) (outcome : Outcome)
    (epId receiptHandle body : String) : Store × NotReadyCounts × List SqsAction :=
  match outcome with
  | .success =>
    let r := ensureFlagsAfterSuccess st
    if !r.2 then
      (r.1, counts, [.deleteMsg receiptHandle, .requeue body 180])
    else if !bothVideoFlagsDone r.1 then
      (r.1, counts, [.deleteMsg receiptHandle, .requeue body 180])
    else
      (r.1, resetNotReady counts epId, [.deleteMsg receiptHandle])
  | .notReady =>
    let c := getCount counts epId + 1
    let counts1 := setCount counts epId c
    if c ≥ 3 then
      (st, resetNotReady counts1 epId, [.emitNotReadyExceeded epId, .deleteMsg receiptHandle])
    else
      (st, counts1, [.deleteMsg receiptHandle, .requeue body 180])
  | .failed => (st, counts, [])

/-- A store whose episode already has both video flags set: the ensure-flags
step returns true without writing and the read-back sees both flags. -/
def c3Store : Store :=
  { episode := some
      { episodeId := "ep-1", episodeTitle := some "Ep", channelName := some "Pod"
        contentType := some "video"
        processingInfo := some ⟨true, true, true, true⟩
        videoLocation := some "https://b.s3.us-east-1.amazonaws.com/pod/ep/v.mp4" }
    quotes := []
    shorts := [] }

/-! ### Message validation (`sqs_handler.py` lines 130-158 and 310-331) -/

/-- A JSON value, as produced by `json.loads`. -/
inductive Json where
  | null
  | boolean (b : Bool)
  | num (n : Int)
  | str (s : String)
  | arr (elems : List Json)
  | obj (fields : List (String × Json))

/-- Python `str()` of a decoded JSON value, as used by
`VideoProcessingMessage.from_dict` on the `episodeId` and force-flag
entries.  Composite values are abbreviated (no claim depends on the exact
rendering of a list or object id). -/
def pyStrJson : Json → String
  | .null => "None"
  | .boolean true => "True"
  | .boolean false => "False"
  | .num n => toString n
  | .str s => s
  | .arr _ => "[...]"
  | .obj _ => "{...}"

/-- `dict.get` on a decoded JSON object (later duplicate keys win, as in
Python's JSON decoding). -/
def jsonGet (fields : List (String × Json)) (key : String) : Option Json :=
  ((fields.filter (fun p => p.1 = key)).getLast?).map Prod.snd

/-- The parsed message (`VideoProcessingMessage`). -/
structure VideoProcessingMessage where
  id : String
  forceVideoChunking : Bool
  forceVideoQuotes : Bool
deriving DecidableEq, Repr

/-- `VideoProcessingMessage.from_dict`. -/
def messageFromDict (fields : List (String × Json)) : VideoProcessingMessage :=
  { id := pyStrJson ((jsonGet fields "episodeId").getD (.str ""))
    forceVideoChunking :=
      pyLower (pyStrJson ((jsonGet fields "force_video_chunking").getD (.str "False"))) == "true"
    forceVideoQuotes :=
      pyLower (pyStrJson ((jsonGet fields "force_video_quotes").getD (.str "False"))) == "true" }

/-- `SQSPoller.validate_message` on the decode result of the body
(`none` = `json.loads` raised `JSONDecodeError`).  A decoded top-level
value that is not an object with an `episodeId` key yields `None`: for an
object the explicit `'episodeId' not in data` check fires, and for any
non-object value either the `in` test raises `TypeError` or `from_dict`
raises `AttributeError` on `.get`, both caught by the enclosing handlers. -/
def validateMessage : Option Json → Option VideoProcessingMessage
  | none => none
  | some (.obj fields) =>
    if (fields.map Prod.fst).contains "episodeId" then some (messageFromDict fields)
    else none
  | some _ => none

/-- A raw SQS message: the receipt handle and the decode result of its
body. -/
structure RawMessage where
  receiptHandle : String
  body : Option Json

/-- The valid sublist of a batch: exactly the messages the batch loop of
`_process_message_batch` hands to the message handler (lines 333-351;
drain only truncates this list, it never adds to it). -/
def validMessages (msgs : List RawMessage) : List RawMessage :=
  msgs.filter (fun m => (validateMessage m.body).isSome)

/-- The deletions issued for the invalid sublist of a batch (lines
328-331): every message that fails validation is deleted. -/
def invalidDeleteActions (msgs : List RawMessage) : List SqsAction :=
  (msgs.filter (fun m => (validateMessage m.body).isNone)).map
    (fun m => .deleteMsg m.receiptHandle)

/-! ### Configuration defaults (`config.py`) -/

/-- Python `int()` on a string of an optional sign followed by decimal
digits; `none` when `int()` would raise.  (Pythonic whitespace stripping
and underscore grouping are not modelled; the configuration defaults are
plain digit strings.) -/
def pyInt? (s : String) : Option Int :=
  let p : Int × List Char :=
    match s.toList with
    | '-' :: rest => (-1, rest)
    | '+' :: rest => (1, rest)
    | cs => (1, cs)
  if p.2 = [] ∨ ¬ p.2.all Char.isDigit then none
  else some (p.1 * (p.2.foldl (fun n c => n * 10 + (c.toNat - 48)) 0 : Nat))

/-- `Config.__init__` line 20:
`int(os.environ.get("SQS_VISIBILITY_TIMEOUT_SECONDS", "300"))`.
The argument is the environment variable's value (if set); the result is
`none` when `int()` would raise. -/
def sqsVisibilityTimeoutSeconds (env : Option String) : Option Int :=
  pyInt? (env.getD "300")

/-- The parameters `SQSPoller.receive_messages` passes to
`sqs.receive_message` (lines 171-176): the visibility timeout is the
configured `sqs_visibility_timeout_seconds` value, unchanged. -/
structure ReceiveParams where
  maxNumberOfMessages : Nat
  waitTimeSeconds : Int
  visibilityTimeout : Int
deriving DecidableEq, Repr

/-- `SQSPoller.receive_messages` builds its request from the configured
values. -/
def receiveParams (waitTime visibility : Int) (maxMessages : Nat) : ReceiveParams :=
  { maxNumberOfMessages := maxMessages
    waitTimeSeconds := waitTime
    visibilityTimeout := visibility }

/-! ### Per-quote clip decision
(`tools/video_quote_cutting_process.py`, `process_video_quotes_with_path`
lines 210-298) -/

/-- The attributes of a quote object that the per-quote loop of
`process_video_quotes_with_path` reads: the existing video URL and the two
candidate timestamp pairs (`context_timestamps`, `proverb_timestamps`),
each `(start_time, end_time)` in seconds. -/
structure CutQuote where
  quoteVideoUrl : Option String
  contextStart : ℚ
  contextEnd : ℚ
  proverbStart : ℚ
  proverbEnd : ℚ
deriving DecidableEq, Repr

/-- What the loop body decides for one quote, before any external call:
either a skip (with the reason logged by the code) or processing of the
clip window `[startTime, endTime)` — for a processed item the code runs
ffmpeg, uploads the clip and calls `update_quote_video_url` (a database
write). -/
inductive CutDecision where
  | skipExistingUrl
  | skipMissingTimestamps
  | skipNegative
  | skipTooShort
  | process (startTime endTime : ℚ)
deriving DecidableEq, Repr

/-- The per-quote decision (lines 217-272): skip when the quote already
has a video URL; select context timestamps when both are non-zero, else
proverb timestamps when both are non-zero, else skip; skip when either
selected bound is negative; when `start > end` *swap* the bounds and
continue; skip when the resulting duration is below 0.1 seconds; otherwise
process the window. -/
def quoteCutDecision (q : CutQuote) : CutDecision :=
  if pyTruthy (q.quoteVideoUrl.map pyStrip) then .skipExistingUrl
  else
    let sel : Option (ℚ × ℚ) :=
      if q.contextStart ≠ 0 ∧ q.contextEnd ≠ 0 then some (q.contextStart, q.contextEnd)
      else if q.proverbStart ≠ 0 ∧ q.proverbEnd ≠ 0 then some (q.proverbStart, q.proverbEnd)
      else none
    match sel with
    | none => .skipMissingTimestamps
    | some (s, e) =>
      if s < 0 ∨ e < 0 then .skipNegative
      else
        let p : ℚ × ℚ := if s > e then (e, s) else (s, e)
        if p.2 - p.1 < (1 : ℚ) / 10 then .skipTooShort
        else .process p.1 p.2

/-! ### The per-message pipeline (`main.py`, `process_video_message`,
lines 573-975) -/

/-- The result of `parse_s3_url` (`utils/__init__.py` lines 163-200):
bucket, region, the key prefix (`path`, possibly empty) and the filename
(non-empty when the regex matches). -/
structure S3Parsed where
  bucket : String
  region : String
  pathPart : String
  filename : String
deriving DecidableEq, Repr

/-- One call to `update_episode_processing_flags`: the
`video_quoting_done` and `video_chunking_done` arguments (each
`True`-or-`None` at every call site). -/
structure FlagCall where
  q : Option Bool
  c : Option Bool
deriving DecidableEq, Repr

/-- The observable result of one pipeline run: the outcome string, the
error/zero-artifact metrics emitted (in order), and the flag-update calls
issued (in order). -/
structure RunResult where
  outcome : Outcome
  metrics : List String
  flagCalls : List FlagCall
deriving DecidableEq, Repr

/-- One record of the result lists returned by
`process_video_artifacts_unified` (the external transcode/upload/DB work
is an oracle; the pipeline only reads `quote_id`/`chunk_id`-style keys and
`hls_url`). -/
structure ArtifactOut where
  itemId : Option String
  hlsUrl : Option String
deriving DecidableEq, Repr

/-- The inputs of one pipeline run: the message id, the store at the
initial reads, the `parse_s3_url` result for the episode's
`videoLocation`, whether the source-video download succeeds
(`video_artifacts_cutting_process.py` lines 79-88), the result lists the
artifact tasks would return, the validation marker, the store at the two
validation reads, and the store at the final completion re-read. -/
structure PipelineEnv where
  messageId : String
  store : Store
  parsed : Option S3Parsed
  downloadOk : Bool
  quoteOutputs : List ArtifactOut
  chunkOutputs : List ArtifactOut
  marker : Int
  snap1 : Store
  snap2 : Store
  finalStore : Store
deriving DecidableEq, Repr

/-- The distinct elements of a list (order of first appearance from the
right; only membership and cardinality are used — this is the Python set
comprehension `{q.quote_id for q in quotes}`). -/
def distinctKeep : List String → List String
  | [] => []
  | x :: xs =>
    let r := distinctKeep xs
    if r.contains x then r else x :: r

/-- The `expected_quote_hls` / `expected_chunk_hls` dictionary of
`validate_db_updates` (lines 421-432): entries for outputs whose id and
url are both truthy, later entries winning. -/
def expectedHls (outputs : List ArtifactOut) (itemId : String) : Option String :=
  (((outputs.filterMap (fun o =>
      match o.itemId, o.hlsUrl with
      | some i, some u => if i ≠ "" && u ≠ "" then some (i, u) else none
      | _, _ => none)).filter (fun p => p.1 = itemId)).getLast?).map Prod.snd

/-- The dictionary `{q.quote_id: q for q in latest_quotes}` (later rows
win) read back in `validate_db_updates`. -/
def lastQuoteWithId (qs : List QuoteRow) (qid : String) : Option QuoteRow :=
  (qs.filter (fun q => q.quoteId = qid)).getLast?

/-- Same dictionary for shorts. -/
def lastShortWithId (cs : List ShortRow) (cid : String) : Option ShortRow :=
  (cs.filter (fun c => c.chunkId = cid)).getLast?

/-- The per-quote test of `validate_db_updates` (lines 451-473): the quote
is missing-or-invalid when it is absent from the snapshot, its
content type does not lowercase to `video`, its master playlist path is
falsy or does not match the freshly produced URL (when one is known), its
`updatedAt` is null, or it is stale (older than the marker). -/
def quoteReadBackOk (snapshotQuotes : List QuoteRow) (outputs : List ArtifactOut)
    (marker : Int) (qid : String) : Bool :=
  match lastQuoteWithId snapshotQuotes qid with
  | none => false
  | some q =>
    let master := q.masterPlaylistPath
    let masterMatch :=
      match expectedHls outputs qid with
      | some ex => master == some ex
      | none => pyTruthy master
    let stale := match q.updatedAt with
      | some t => decide (t < marker)
      | none => false
    (pyLower (pyStr q.contentType) == "video") && pyTruthy master && masterMatch
      && q.updatedAt.isSome && !stale

/-- The per-chunk test of `validate_db_updates` (lines 494-515). -/
def chunkReadBackOk (snapshotShorts : List ShortRow) (outputs : List ArtifactOut)
    (marker : Int) (cid : String) : Bool :=
  match lastShortWithId snapshotShorts cid with
  | none => false
  | some c =>
    let master := c.masterPlaylistPath
    let masterMatch :=
      match expectedHls outputs cid with
      | some ex => master == some ex
      | none => pyTruthy master
    let stale := match c.updatedAt with
      | some t => decide (t < marker)
      | none => false
    (pyLower (pyStr c.contentType) == "video") && pyTruthy master && masterMatch
      && c.updatedAt.isSome && !stale

/-- The quotes half of `validate_db_updates` (lines 440-481): vacuously
true when no quotes were to be checked; otherwise the output count must
equal the number of distinct expected ids and every expected id must read
back valid. -/
def quotesValidate (snapshotQuotes : List QuoteRow) (toCheck : List QuoteRow)
    (outputs : List ArtifactOut) (marker : Int) : Bool :=
  if toCheck.isEmpty then true
  else
    let expectedIds := distinctKeep (toCheck.map (fun q => q.quoteId))
    decide (outputs.length = expectedIds.length)
      && expectedIds.all (fun qid => quoteReadBackOk snapshotQuotes outputs marker qid)

/-- The chunks half of `validate_db_updates` (lines 483-523). -/
def chunksValidate (snapshotShorts : List ShortRow) (toCheck : List ShortRow)
    (outputs : List ArtifactOut) (marker : Int) : Bool :=
  if toCheck.isEmpty then true
  else
    let expectedIds := distinctKeep (toCheck.map (fun c => c.chunkId))
    decide (outputs.length = expectedIds.length)
      && expectedIds.all (fun cid => chunkReadBackOk snapshotShorts outputs marker cid)

/-- `validate_db_updates` against one consistent snapshot: the pair
`(quotes_ok, chunks_ok)`. -/
def validateDbUpdates (snap : Store) (quotesToCheck : List QuoteRow)
    (chunksToCheck : List ShortRow) (qOutputs cOutputs : List ArtifactOut)
    (marker : Int) : Bool × Bool :=
  (quotesValidate snap.quotes quotesToCheck qOutputs marker,
   chunksValidate snap.shorts chunksToCheck cOutputs marker)

/-- `process_video_artifacts_unified`
(`tools/video_artifacts_cutting_process.py` lines 38-132): when the
source-video download fails (or the file is empty) the error is caught and
the *empty* result lists are returned — no exception propagates; otherwise
the per-category tasks run exactly when their pending list is non-empty
and their (oracle) results are collected. -/
def processArtifactsUnified (downloadOk : Bool) (qOut cOut : List ArtifactOut)
    (qs : List QuoteRow) (cs : List ShortRow) : List ArtifactOut × List ArtifactOut :=
  if !downloadOk then ([], [])
  else
    ((if !qs.isEmpty then qOut else []), (if !cs.isEmpty then cOut else []))

/-- The flag-update call of the fast-finalize path (`main.py` lines
753-803): `quotes_all_done` / `chunks_all_done` are computed from the
fetched lists (vacuously true when a list was never fetched), the quoting
flag is additionally suppressed when there are zero quotes, and the update
is issued when either category is complete.  Note that `chunks_all_done`
carries no `chunkingDone` guard. -/
def fastFinalizeCall (allQuotes : List QuoteRow) (allChunks : List ShortRow) :
    Option FlagCall :=
  let quotesAllDone := if !allQuotes.isEmpty then allQuotesProcessed allQuotes else true
  let chunksAllDone := if !allChunks.isEmpty then allChunksProcessed allChunks else true
  if quotesAllDone || chunksAllDone then
    some { q := if quotesAllDone && decide (allQuotes.length > 0) then some true else none
           c := if chunksAllDone then some true else none }
  else none

/-- The flag-update call of the post-processing flag-advance path
(`main.py` lines 876-921): completion is recomputed from an independent
re-read; a category's flag is wanted only when its `*Done` precondition
held (the `final_* or processing_info.get(...)` guard), and the quoting
flag is suppressed when zero quotes exist. -/
def postFlagCall (pi : PInfo) (finalQuotes : List QuoteRow)
    (finalChunks : List ShortRow) : Option FlagCall :=
  let wantQ0 := if !finalQuotes.isEmpty || pi.quotingDone then
      allQuotesProcessed finalQuotes else false
  let wantC := if !finalChunks.isEmpty || pi.chunkingDone then
      allChunksProcessed finalChunks else false
  let wantQ := if wantQ0 && finalQuotes.isEmpty then false else wantQ0
  if wantQ || wantC then
    some { q := if wantQ then some true else none
           c := if wantC then some true else none }
  else none

/-- The validation decision of the artifact-production phase (`main.py`
lines 805-874): run the unified artifact step, validate the database
against a fresh snapshot, and on failure retry once against a second
read; the result is whether the run may advance flags (false = the
`NotReady` return at line 874).  (Exceptions from the external steps are
supplied through the oracles; the `Failed`-on-exception branch at lines
928-933 concerns exceptions that this model's oracles absorb.) -/
def artifactValidationPasses (env : PipelineEnv)
    (quotesToProcess : List QuoteRow) (chunksToProcess : List ShortRow) : Bool :=
  let outs := processArtifactsUnified env.downloadOk env.quoteOutputs env.chunkOutputs
      quotesToProcess chunksToProcess
  let shouldQ := !quotesToProcess.isEmpty
  let shouldC := !chunksToProcess.isEmpty
  let v1 := validateDbUpdates env.snap1
      (if shouldQ then quotesToProcess else [])
      (if shouldC then chunksToProcess else []) outs.1 outs.2 env.marker
  if (shouldQ && !v1.1) || (shouldC && !v1.2) then
    let v2 := validateDbUpdates env.snap2
        (if shouldQ then quotesToProcess else [])
        (if shouldC then chunksToProcess else []) outs.1 outs.2 env.marker
    !((shouldQ && !v2.1) || (shouldC && !v2.2))
  else true

/-- The artifact-production phase, continued: `NotReady` when the
validation (with its one retry) still fails, else the post-processing flag
advance and `Success`. -/
def artifactPhase (env : PipelineEnv) (pi : PInfo)
    (quotesToProcess : List QuoteRow) (chunksToProcess : List ShortRow) : RunResult :=
  if !(artifactValidationPasses env quotesToProcess chunksToProcess) then
    { outcome := .notReady, metrics := [], flagCalls := [] }
  else
    let finalQuotes := if pi.quotingDone then env.finalStore.quotes else []
    let finalChunks := if pi.chunkingDone then env.finalStore.shorts else []
    match postFlagCall pi finalQuotes finalChunks with
    | some fc => { outcome := .success, metrics := [], flagCalls := [fc] }
    | none => { outcome := .success, metrics := [], flagCalls := [] }

/-- The inventory / short-circuit / pending-filter / dispatch section of
`process_video_message` (lines 689-935), entered once the preconditions
passed, with `pi` the episode's `processingInfo`. -/
def pipelineMain (env : PipelineEnv) (pi : PInfo) : RunResult :=
  let fetchQ := pi.quotingDone && !pi.videoQuotingDone
  let allQuotes := if fetchQ then env.store.quotes else []
  let m1 : List String :=
    if fetchQ && allQuotes.isEmpty then ["ZeroQuotes", "ZeroQuotesUnexpected"] else []
  let fetchC := pi.chunkingDone && !pi.videoChunkingDone
  let allChunks := if fetchC then env.store.shorts else []
  let chunks := allChunks.filter (fun c => (pyStrip (c.transcript.getD "")) ≠ "")
  let m2 : List String :=
    if fetchC && allChunks.isEmpty then ["ZeroChunks", "ZeroChunksUnexpected"] else []
  if pi.videoChunkingDone && pi.videoQuotingDone then
    let m3 :=
      (if allQuotes.isEmpty then ["ZeroQuotes", "ZeroQuotesAlreadyProcessed"] else []) ++
      (if allChunks.isEmpty then ["ZeroChunks", "ZeroChunksAlreadyProcessed"] else [])
    { outcome := .success, metrics := m1 ++ m2 ++ m3, flagCalls := [] }
  else
    let quotesToProcess := allQuotes.filter (fun q => !isQuoteProcessed q)
    let chunksToProcess := chunks.filter (fun c => isValidChunk c && !isChunkProcessed c)
    if quotesToProcess.isEmpty && chunksToProcess.isEmpty then
      let m4 :=
        (if pi.quotingDone && allQuotes.isEmpty then
          ["ZeroQuotes", "ZeroQuotesFinalize"] else []) ++
        (if pi.chunkingDone && allChunks.isEmpty then
          ["ZeroChunks", "ZeroChunksFinalize"] else [])
      match fastFinalizeCall allQuotes allChunks with
      | some fc => { outcome := .success, metrics := m1 ++ m2 ++ m4, flagCalls := [fc] }
      | none => { outcome := .success, metrics := m1 ++ m2 ++ m4, flagCalls := [] }
    else
      let r := artifactPhase env pi quotesToProcess chunksToProcess
      { outcome := r.outcome, metrics := m1 ++ m2 ++ r.metrics, flagCalls := r.flagCalls }

/-- `process_video_message` (lines 573-975): load the episode, run the
precondition checks of lines 642-688 (absent or non-video episode →
`Success`; missing `processingInfo` → `Failed`; falsy `videoLocation` →
`MissingVideoLocation` metric and `Success`; unparseable location or empty
key prefix → `MissingVideoKey` metric and `Failed`; missing titles →
`MissingTitles` metric and `Failed`), then hand over to the main section. -/
def runPipeline (env : PipelineEnv) : RunResult :=
  if env.messageId = "" then { outcome := .failed, metrics := [], flagCalls := [] }
  else
    match env.store.episode with
    | none => { outcome := .success, metrics := [], flagCalls := [] }
    | some ep =>
      if (match ep.contentType with
          | some s => s ≠ "" && pyLower s ≠ "video"
          | none => false) then
        { outcome := .success, metrics := [], flagCalls := [] }
      else
        match ep.processingInfo with
        | none => { outcome := .failed, metrics := ["MissingProcessingStatus"], flagCalls := [] }
        | some pi =>
          if !pyTruthy ep.videoLocation then
            { outcome := .success, metrics := ["MissingVideoLocation"], flagCalls := [] }
          else
            let s3Key : Option String := env.parsed.map (fun p => p.pathPart)
            let s3VideoKey : Option String :=
              match env.parsed with
              | some p => if p.pathPart ≠ "" then some (p.pathPart ++ p.filename) else none
              | none => none
            if !pyTruthy s3VideoKey then
              { outcome := .failed, metrics := ["MissingVideoKey"], flagCalls := [] }
            else if pyStr ep.channelName = "" ∨ ¬ pyTruthy ep.episodeTitle then
              { outcome := .failed, metrics := ["MissingTitles"], flagCalls := [] }
            else if !pyTruthy s3Key then
              { outcome := .failed, metrics := ["MissingS3Key"], flagCalls := [] }
            else
              pipelineMain env pi

/-! ### Claim C2: the fast-finalize path and the chunking precondition -/

/-- The C2 failing input: a video episode whose `processingInfo` says
`quotingDone = true`, `chunkingDone = false`, neither video flag set, and
whose single quote is already processed (so both pending lists are empty
and the fast-finalize path runs). -/
def c2Env : PipelineEnv :=
  { messageId := "ep-2"
    store :=
      { episode := some
          { episodeId := "ep-2", episodeTitle := some "Ep", channelName := some "Pod"
            contentType := some "video"
            processingInfo := some
              { chunkingDone := false, quotingDone := true
                videoChunkingDone := false, videoQuotingDone := false }
            videoLocation := some "https://b.s3.us-east-1.amazonaws.com/pod/ep/v.mp4" }
        quotes := [{ quoteId := "q1", contentType := some "video"
                     masterPlaylistPath := some "https://cdn/q1/master.m3u8"
                     updatedAt := some 0, quoteText := some "t", contextText := some "c"
                     quoteLength := none, quoteStartMs := none, quoteEndMs := none
                     quoteAudioUrl := none }]
        shorts := [] }
    parsed := some { bucket := "b", region := "us-east-1", pathPart := "pod/ep/", filename := "v.mp4" }
    downloadOk := true
    quoteOutputs := [], chunkOutputs := []
    marker := 0
    snap1 := { episode := none, quotes := [], shorts := [] }
    snap2 := { episode := none, quotes := [], shorts := [] }
    finalStore := { episode := none, quotes := [], shorts := [] } }

/-- The C5 counterexample state: `quotingDone` true, zero quote rows,
zero short rows, `videoChunkingDone` already true, `videoQuotingDone`
false. -/
def c5Store : Store :=
  { episode := some
      { episodeId := "ep-5", episodeTitle := some "Ep", channelName := some "Pod"
        contentType := some "video"
        processingInfo := some
          { chunkingDone := true, quotingDone := true
            videoChunkingDone := true, videoQuotingDone := false }
        videoLocation := some "https://b.s3.us-east-1.amazonaws.com/pod/ep/v.mp4" }
    quotes := []
    shorts := [] }

/-- The pipeline run on the C5 counterexample state. -/
def c5Env : PipelineEnv :=
  { messageId := "ep-5"
    store := c5Store
    parsed := some { bucket := "b", region := "us-east-1", pathPart := "pod/ep/", filename := "v.mp4" }
    downloadOk := true
    quoteOutputs := [], chunkOutputs := []
    marker := 0
    snap1 := c5Store, snap2 := c5Store, finalStore := c5Store }

/-- The C6 counterexample environment: a video episode with
`processingInfo` present but no `videoLocation` entry. -/
def c6Env : PipelineEnv :=
  { messageId := "ep-6"
    store :=
      { episode := some
          { episodeId := "ep-6", episodeTitle := some "Ep", channelName := some "Pod"
            contentType := some "video"
            processingInfo := some
              { chunkingDone := true, quotingDone := true
                videoChunkingDone := false, videoQuotingDone := false }
            videoLocation := none }
        quotes := [], shorts := [] }
    parsed := none
    downloadOk := true
    quoteOutputs := [], chunkOutputs := []
    marker := 0
    snap1 := { episode := none, quotes := [], shorts := [] }
    snap2 := { episode := none, quotes := [], shorts := [] }
    finalStore := { episode := none, quotes := [], shorts := [] } }

/-- An environment reaching the missing-titles branch: empty channel
name. -/
def c6TitlesEnv : PipelineEnv :=
  { messageId := "ep-6b"
    store :=
      { episode := some
          { episodeId := "ep-6b", episodeTitle := some "Ep", channelName := some ""
            contentType := some "video"
            processingInfo := some
              { chunkingDone := true, quotingDone := true
                videoChunkingDone := false, videoQuotingDone := false }
            videoLocation := some "https://b.s3.us-east-1.amazonaws.com/pod/ep/v.mp4" }
        quotes := [], shorts := [] }
    parsed := some { bucket := "b", region := "us-east-1", pathPart := "pod/ep/", filename := "v.mp4" }
    downloadOk := true
    quoteOutputs := [], chunkOutputs := []
    marker := 0
    snap1 := { episode := none, quotes := [], shorts := [] }
    snap2 := { episode := none, quotes := [], shorts := [] }
    finalStore := { episode := none, quotes := [], shorts := [] } }

/-- The C7 counterexample environment: one pending (unprocessed) quote and
a failing source-video download. -/
def c7Env : PipelineEnv :=
  { messageId := "ep-7"
    store :=
      { episode := some
          { episodeId := "ep-7", episodeTitle := some "Ep", channelName := some "Pod"
            contentType := some "video"
            processingInfo := some
              { chunkingDone := false, quotingDone := true
                videoChunkingDone := false, videoQuotingDone := false }
            videoLocation := some "https://b.s3.us-east-1.amazonaws.com/pod/ep/v.mp4" }
        quotes := [{ quoteId := "q1", contentType := none
                     masterPlaylistPath := none
                     updatedAt := some 0, quoteText := some "t", contextText := some "c"
                     quoteLength := none, quoteStartMs := none, quoteEndMs := none
                     quoteAudioUrl := none }]
        shorts := [] }
    parsed := some { bucket := "b", region := "us-east-1", pathPart := "pod/ep/", filename := "v.mp4" }
    downloadOk := false
    quoteOutputs := [], chunkOutputs := []
    marker := 0
    snap1 := { episode := none, quotes := [], shorts := [] }
    snap2 := { episode := none, quotes := [], shorts := [] }
    finalStore := { episode := none, quotes := [], shorts := [] } }

/-- Claim C1 (code evaluation at the failing input): the claim states that
no write path ever sets a `processingInfo` flag that is currently true in
the store back to false.  The code of `update_episode_item` violates this:
with the store showing `videoQuotingDone = true` and the in-memory episode
holding the stale pre-advance `processingInfo`, the minimal update detects
a difference and overwrites the whole object, setting `videoQuotingDone`
back to false. -/
theorem c1_update_episode_item_regresses_flag :
    (c1CurrentRow.processingInfo.getD PInfo.empty).videoQuotingDone = true ∧
    ((updateEpisodeItemTxn c1MemEpisode c1CurrentRow).processingInfo.getD
        PInfo.empty).videoQuotingDone = false := by
  constructor <;> rfl

/-- Supporting fact (not tied to a claim): the dedicated flag-update path
`update_episode_processing_flags` can never unset a flag when it is only
ever passed `True` or `None` for each flag, which is what every caller in
the repository does. -/
theorem applyFlagUpdate_monotone (pi : Option PInfo) (q c : Bool) :
    ((applyFlagUpdate pi (if q then some true else none)
        (if c then some true else none)).getD PInfo.empty).videoQuotingDone
      = ((pi.getD PInfo.empty).videoQuotingDone || q) ∨
    ((applyFlagUpdate pi (if q then some true else none)
        (if c then some true else none)).getD PInfo.empty).videoQuotingDone
      = true := by
  cases q <;> cases c <;> cases pi <;> simp [applyFlagUpdate, PInfo.empty]

/-- Claim C3: on a `Success` outcome the consumer deletes permanently and
resets the NotReady counter exactly when the ensure-flags step returns
true and both video flags then read back true from the store; in every
other case it deletes the original receipt and requeues the identical body
(with the fixed 180-second delay). -/
theorem c3_success_routing (st : Store) (counts : NotReadyCounts)
    (epId receiptHandle body : String) :
    (((ensureFlagsAfterSuccess st).2 = true ∧
        bothVideoFlagsDone (ensureFlagsAfterSuccess st).1 = true) →
      routeOutcome st counts .success epId receiptHandle body =
        ((ensureFlagsAfterSuccess st).1, resetNotReady counts epId,
          [.deleteMsg receiptHandle])) ∧
    (¬ ((ensureFlagsAfterSuccess st).2 = true ∧
        bothVideoFlagsDone (ensureFlagsAfterSuccess st).1 = true) →
      routeOutcome st counts .success epId receiptHandle body =
        ((ensureFlagsAfterSuccess st).1, counts,
          [.deleteMsg receiptHandle, .requeue body 180])) := by
  constructor
  · intro h
    simp [routeOutcome, h.1, h.2]
  · intro h
    cases h2 : (ensureFlagsAfterSuccess st).2 with
    | false => simp [routeOutcome, h2]
    | true =>
      cases h3 : bothVideoFlagsDone (ensureFlagsAfterSuccess st).1 with
      | false => simp [routeOutcome, h2, h3]
      | true => exact absurd ⟨h2, h3⟩ h

/-- Witness for C3 at a concrete store: both conditions hold, so the
message is deleted permanently and the counter reset. -/
theorem c3_success_routing_witness :
    routeOutcome c3Store [("ep-1", 2)] .success "ep-1" "rh" "body" =
      ((ensureFlagsAfterSuccess c3Store).1, resetNotReady [("ep-1", 2)] "ep-1",
        [.deleteMsg "rh"]) :=
  (c3_success_routing c3Store [("ep-1", 2)] "ep-1" "rh" "body").1 (by decide)

/-- Claim C4: on a `NotReady` outcome the consumer increments the
in-memory per-episode counter.  When the counter reaches 3 it emits the
`NotReadyCountExceeded` metric, deletes the message without requeueing and
resets the counter; below 3 it deletes the original and requeues the same
body with the fixed 180-second delay. -/
theorem c4_notready_routing (st : Store) (counts : NotReadyCounts)
    (epId receiptHandle body : String) :
    (getCount counts epId = 2 →
      routeOutcome st counts .notReady epId receiptHandle body =
        (st, resetNotReady (setCount counts epId 3) epId,
          [.emitNotReadyExceeded epId, .deleteMsg receiptHandle])) ∧
    (getCount counts epId < 2 →
      routeOutcome st counts .notReady epId receiptHandle body =
        (st, setCount counts epId (getCount counts epId + 1),
          [.deleteMsg receiptHandle, .requeue body 180])) := by
  constructor
  · intro h
    simp [routeOutcome, h]
  · intro h
    have h3 : ¬ (getCount counts epId + 1 ≥ 3) := by omega
    simp [routeOutcome, h3]

/-- Witness for C4 at concrete counters: a second prior NotReady escalates;
a fresh episode requeues with the 180-second delay. -/
theorem c4_notready_routing_witness :
    routeOutcome c3Store [("ep-1", 2)] .notReady "ep-1" "rh" "body" =
      (c3Store, resetNotReady (setCount [("ep-1", 2)] "ep-1" 3) "ep-1",
        [.emitNotReadyExceeded "ep-1", .deleteMsg "rh"]) ∧
    routeOutcome c3Store [] .notReady "ep-2" "rh2" "body2" =
      (c3Store, setCount [] "ep-2" 1, [.deleteMsg "rh2", .requeue "body2" 180]) :=
  ⟨(c4_notready_routing c3Store [("ep-1", 2)] "ep-1" "rh" "body").1 (by decide),
   (c4_notready_routing c3Store [] "ep-2" "rh2" "body2").2 (by decide)⟩

/-- Claim C10: a received message whose body is not valid JSON or whose
decoded body lacks an `episodeId` field is deleted from the queue and is
never handed to the handler (the handler runs only on `validMessages`). -/
theorem c10_invalid_message_deleted_not_processed (msgs : List RawMessage)
    (m : RawMessage) (hmem : m ∈ msgs)
    (hinvalid : validateMessage m.body = none) :
    SqsAction.deleteMsg m.receiptHandle ∈ invalidDeleteActions msgs ∧
    m ∉ validMessages msgs := by
  constructor
  · refine List.mem_map.mpr ⟨m, ?_, rfl⟩
    refine List.mem_filter.mpr ⟨hmem, ?_⟩
    simp [hinvalid]
  · intro hvalid
    have h := (List.mem_filter.mp hvalid).2
    rw [hinvalid] at h
    simp at h

/-- Witness for C10: a body that decodes to an object without `episodeId`
is deleted and not handled. -/
theorem c10_invalid_message_witness :
    SqsAction.deleteMsg "rh-bad" ∈
      invalidDeleteActions [⟨"rh-bad", some (.obj [("foo", .str "bar")])⟩] ∧
    (⟨"rh-bad", some (.obj [("foo", .str "bar")])⟩ : RawMessage) ∉
      validMessages [⟨"rh-bad", some (.obj [("foo", .str "bar")])⟩] :=
  c10_invalid_message_deleted_not_processed
    [⟨"rh-bad", some (.obj [("foo", .str "bar")])⟩]
    ⟨"rh-bad", some (.obj [("foo", .str "bar")])⟩
    (List.mem_singleton.mpr rfl) rfl

/-- Counterexample to claim C9: with `SQS_VISIBILITY_TIMEOUT_SECONDS`
unset, the configured initial visibility lease is 300 seconds, not 14400
as the claim states. -/
theorem c9_default_visibility_is_not_14400 :
    sqsVisibilityTimeoutSeconds none = some 300 ∧
    sqsVisibilityTimeoutSeconds none ≠ some 14400 := by
  constructor <;> decide

/-- Claim C9 (amended): with the environment variable unset the configured
initial visibility lease defaults to 300 seconds, and `receive_messages`
passes exactly that value as the `VisibilityTimeout` of the receive call. -/
theorem c9_default_visibility_lease :
    sqsVisibilityTimeoutSeconds none = some 300 ∧
    (receiveParams 20 300 1).visibilityTimeout = 300 := by
  constructor <;> rfl

/-- Counterexample to claim C8: a quote whose selected context window has
end (5s) earlier than start (10s) is *not* skipped — the code swaps the
bounds and processes the window `[5, 10)`, producing a clip and issuing
the database write. -/
theorem c8_inverted_window_is_processed :
    quoteCutDecision
        { quoteVideoUrl := none
          contextStart := 10, contextEnd := 5
          proverbStart := 0, proverbEnd := 0 } = .process 5 10 := by
  norm_num [quoteCutDecision, pyTruthy]

/-- Claim C8 (amended): a quote window with both bounds positive, end
earlier than start, and gap at least 0.1 s is swapped and processed as
`[end, start)`; the item is skipped only when a bound is negative or when
the absolute gap is below 0.1 s. -/
theorem c8_inverted_window_swap (q : CutQuote)
    (hnourl : q.quoteVideoUrl = none)
    (hstart : 0 < q.contextStart) (hend : 0 < q.contextEnd)
    (hinv : q.contextEnd < q.contextStart)
    (hgap : q.contextStart - q.contextEnd ≥ (1 : ℚ) / 10) :
    quoteCutDecision q = .process q.contextEnd q.contextStart := by
  have hs0 : q.contextStart ≠ 0 := ne_of_gt hstart
  have he0 : q.contextEnd ≠ 0 := ne_of_gt hend
  have hsel : (q.contextStart ≠ 0 ∧ q.contextEnd ≠ 0) := ⟨hs0, he0⟩
  have hneg : ¬ (q.contextStart < 0 ∨ q.contextEnd < 0) := by
    push_neg
    exact ⟨le_of_lt hstart, le_of_lt hend⟩
  have hswap : q.contextStart > q.contextEnd := hinv
  have hshort : ¬ (q.contextStart - q.contextEnd < (1 : ℚ) / 10) := not_lt.mpr hgap
  simp only [quoteCutDecision, hnourl, Option.map_none', pyTruthy, if_pos hsel,
    if_pos hswap, if_neg hneg, if_neg hshort]
  rfl

/-- Witness for the amended C8 at the window `(10, 5)`. -/
theorem c8_inverted_window_swap_witness :
    quoteCutDecision
        { quoteVideoUrl := none
          contextStart := 10, contextEnd := 5
          proverbStart := 1, proverbEnd := 2 } = .process 5 10 :=
  c8_inverted_window_swap
    { quoteVideoUrl := none
      contextStart := 10, contextEnd := 5
      proverbStart := 1, proverbEnd := 2 }
    rfl (by norm_num) (by norm_num) (by norm_num) (by norm_num)

/-- Claim C2 (code evaluation at the failing input): the claim states
`video_chunking_done=True` is passed only if `chunkingDone` was true, but
on the fast-finalize path the run below passes `video_chunking_done=True`
although its `processingInfo.chunkingDone` is false: since `chunkingDone`
is false no shorts are fetched, `chunks_all_done` is vacuously true, and
the fast-finalize call carries `c = some true`. -/
theorem c2_fast_finalize_chunking_without_precondition :
    runPipeline c2Env =
      { outcome := .success, metrics := []
        flagCalls := [{ q := some true, c := some true }] } ∧
    ((getProcessingStatus c2Env.store).getD PInfo.empty).chunkingDone = false := by
  constructor <;> decide

/-! ### Claim C5: zero quote rows and the quoting flag -/

/-- Helper: on the fast-finalize path with an empty fetched quote list,
the call is issued with no quoting argument (the `len(all_quotes) > 0`
guard) and a chunking argument coming from the vacuous-or-real
`chunks_all_done`. -/
theorem fastFinalizeCall_nil_quotes (cs : List ShortRow) :
    fastFinalizeCall [] cs =
      some { q := none
             c := if (if !cs.isEmpty then allChunksProcessed cs else true) then
                    some true else none } := by
  rfl

/-- Helper: the post-processing flag advance never requests the quoting
flag when the completion re-read returned zero quotes (the zero-quote
suppression at lines 886-888). -/
theorem postFlagCall_nil_quotes (pi : PInfo) (cs : List ShortRow) :
    postFlagCall pi [] cs =
      (if (if !cs.isEmpty || pi.chunkingDone then allChunksProcessed cs else false) then
        some { q := none, c := some true } else none) := by
  cases hq : pi.quotingDone <;>
    cases hc : (if (!cs.isEmpty || pi.chunkingDone) = true then allChunksProcessed cs
        else false) <;>
      simp only [postFlagCall, List.isEmpty_nil, Bool.not_true, Bool.false_or,
        allQuotesProcessed, List.all_nil, Bool.and_true, hq, hc] <;> rfl

/-- Helper: when the completion re-read store has no quote rows, the
artifact phase issues no flag call with a quoting argument. -/
theorem artifactPhase_nil_quotes (env : PipelineEnv) (pi : PInfo)
    (qs : List QuoteRow) (cs : List ShortRow)
    (hfin : env.finalStore.quotes = []) :
    ((artifactPhase env pi qs cs).flagCalls.all fun fc => fc.q.isNone) = true := by
  have hq : (if pi.quotingDone = true then env.finalStore.quotes else []) = [] := by
    rw [hfin]
    exact ite_self []
  simp only [artifactPhase, hq, postFlagCall_nil_quotes]
  split_ifs <;> rfl

/-- Helper: with no quote rows at the initial read and at the completion
re-read, the main pipeline section issues no flag call with a quoting
argument. -/
theorem pipelineMain_nil_quotes (env : PipelineEnv) (pi : PInfo)
    (hstore : env.store.quotes = []) (hfin : env.finalStore.quotes = []) :
    ((pipelineMain env pi).flagCalls.all fun fc => fc.q.isNone) = true := by
  simp only [pipelineMain, hstore, ite_self, List.filter_nil, List.isEmpty_nil,
    fastFinalizeCall_nil_quotes]
  split_ifs <;>
    first
      | rfl
      | exact artifactPhase_nil_quotes env pi _ _ hfin

/-- Claim C5 (amended, the part that holds): the pipeline itself — the
fast-finalize path and the post-processing flag-advance path — never
passes `video_quoting_done=True` when the episode has zero quote rows
(both at the initial read and at the completion re-read). -/
theorem c5_pipeline_never_requests_quoting_flag (env : PipelineEnv)
    (hstore : env.store.quotes = []) (hfin : env.finalStore.quotes = []) :
    ((runPipeline env).flagCalls.all fun fc => fc.q.isNone) = true := by
  simp only [runPipeline]
  repeat' split
  all_goals first
    | rfl
    | exact pipelineMain_nil_quotes env _ hstore hfin

/-- Counterexample to claim C5 as stated: for this zero-quote episode the
pipeline does return `Success` without requesting the quoting flag, but
`videoQuotingDone` does **not** remain false — the consumer's
ensure-flags-after-success step (which `routeOutcome` runs on every
`Success`) treats the empty quote list as vacuously complete and sets
`videoQuotingDone` to true in the store. -/
theorem c5_ensure_step_sets_quoting_flag_with_zero_quotes :
    ((getProcessingStatus c5Store).getD PInfo.empty).videoQuotingDone = false ∧
    (runPipeline c5Env).outcome = .success ∧
    ((getProcessingStatus
        (routeOutcome c5Store [] .success "ep-5" "rh" "body").1).getD
        PInfo.empty).videoQuotingDone = true := by
  refine ⟨by decide, by decide, by decide⟩

/-- Witness for the amended C5 at the concrete zero-quote environment. -/
theorem c5_pipeline_never_requests_quoting_flag_witness :
    ((runPipeline c5Env).flagCalls.all fun fc => fc.q.isNone) = true :=
  c5_pipeline_never_requests_quoting_flag c5Env rfl rfl

/-! ### Claim C6: the precondition step -/

/-- Appending to a non-empty string never yields the empty string. -/
theorem append_ne_empty_left (a b : String) (ha : a ≠ "") : a ++ b ≠ "" := by
  intro h
  apply ha
  have hdata := congrArg String.data h
  have h2 : a.data = [] := by
    cases a with
    | mk da =>
      cases b with
      | mk db =>
        simp only [String.data] at hdata
        have : da ++ db = [] := by
          simpa using hdata
        exact (List.append_eq_nil.mp this).1
  cases a
  simp_all

/-- Claim C6 (amended): in the precondition step, a falsy
`additionalData.videoLocation` emits `MissingVideoLocation` and returns
**Success** (not Failed); a non-parseable location, or one whose key
prefix is empty, emits `MissingVideoKey` and returns `Failed`; missing
titles emit `MissingTitles` and return `Failed`. -/
theorem c6_precondition_routing (env : PipelineEnv) (ep : EpisodeRow) (pi : PInfo)
    (hid : env.messageId ≠ "")
    (hep : env.store.episode = some ep)
    (hct : (match ep.contentType with
            | some s => s ≠ "" && pyLower s ≠ "video"
            | none => false) = false)
    (hpi : ep.processingInfo = some pi) :
    (pyTruthy ep.videoLocation = false →
      runPipeline env =
        { outcome := .success, metrics := ["MissingVideoLocation"], flagCalls := [] }) ∧
    (pyTruthy ep.videoLocation = true → env.parsed = none →
      runPipeline env =
        { outcome := .failed, metrics := ["MissingVideoKey"], flagCalls := [] }) ∧
    (∀ p : S3Parsed, pyTruthy ep.videoLocation = true → env.parsed = some p →
      p.pathPart = "" →
      runPipeline env =
        { outcome := .failed, metrics := ["MissingVideoKey"], flagCalls := [] }) ∧
    (∀ p : S3Parsed, pyTruthy ep.videoLocation = true → env.parsed = some p →
      p.pathPart ≠ "" →
      (pyStr ep.channelName = "" ∨ ¬ pyTruthy ep.episodeTitle) →
      runPipeline env =
        { outcome := .failed, metrics := ["MissingTitles"], flagCalls := [] }) := by
  refine ⟨?_, ?_, ?_, ?_⟩
  · intro hvl
    simp only [runPipeline]
    rw [if_neg hid]
    simp only [hep]
    rw [hct]
    simp only [hpi]
    rw [hvl]
    rfl
  · intro hvl hparsed
    simp only [runPipeline]
    rw [if_neg hid]
    simp only [hep]
    rw [hct]
    simp only [hpi]
    rw [hvl]
    simp only [hparsed]
    rfl
  · intro p hvl hparsed hpath
    simp only [runPipeline]
    rw [if_neg hid]
    simp only [hep]
    rw [hct]
    simp only [hpi]
    rw [hvl]
    simp only [hparsed]
    have hne : ¬ (p.pathPart ≠ "") := fun hcon => hcon hpath
    rw [if_neg hne]
    rfl
  · intro p hvl hparsed hpath htitles
    simp only [runPipeline]
    rw [if_neg hid]
    simp only [hep]
    rw [hct]
    simp only [hpi]
    rw [hvl]
    simp only [hparsed]
    rw [if_pos hpath]
    have hkey : pyTruthy (some (p.pathPart ++ p.filename)) = true := by
      simp [pyTruthy]
      exact append_ne_empty_left _ _ hpath
    rw [hkey]
    rw [if_pos htitles]
    rfl

/-- Counterexample to claim C6 as stated: with `videoLocation` missing the
pipeline emits the `MissingVideoLocation` metric but returns `Success`,
not `Failed`. -/
theorem c6_missing_location_returns_success :
    runPipeline c6Env =
      { outcome := .success, metrics := ["MissingVideoLocation"], flagCalls := [] } ∧
    (runPipeline c6Env).outcome ≠ .failed := by
  constructor <;> decide

/-- Witness for the amended C6: the missing-titles branch at a concrete
environment. -/
theorem c6_precondition_routing_witness :
    runPipeline c6TitlesEnv =
      { outcome := .failed, metrics := ["MissingTitles"], flagCalls := [] } :=
  (c6_precondition_routing c6TitlesEnv
      { episodeId := "ep-6b", episodeTitle := some "Ep", channelName := some ""
        contentType := some "video"
        processingInfo := some
          { chunkingDone := true, quotingDone := true
            videoChunkingDone := false, videoQuotingDone := false }
        videoLocation := some "https://b.s3.us-east-1.amazonaws.com/pod/ep/v.mp4" }
      { chunkingDone := true, quotingDone := true
        videoChunkingDone := false, videoQuotingDone := false }
      (by decide) rfl (by decide) rfl).2.2.2
    { bucket := "b", region := "us-east-1", pathPart := "pod/ep/", filename := "v.mp4" }
    (by decide) rfl (by decide) (Or.inl rfl)

/-! ### Claim C7: source-video download failure -/

/-- The distinct-elements list of a non-empty list is non-empty. -/
theorem distinctKeep_ne_nil : ∀ (l : List String), l ≠ [] → distinctKeep l ≠ []
  | [], h => absurd rfl h
  | x :: xs, _ => by
    simp only [distinctKeep]
    split
    · rename_i hc
      intro hnil
      rw [hnil] at hc
      simp at hc
    · simp

/-- With a non-empty expected list and no outputs, the quote half of the
validation fails on the count check. -/
theorem quotesValidate_no_outputs (qs : List QuoteRow) (h : qs ≠ []) :
    ∀ (snap : List QuoteRow) (marker : Int), quotesValidate snap qs [] marker = false := by
  intro snap marker
  unfold quotesValidate
  rw [if_neg]
  · have hlen : distinctKeep (qs.map fun q => q.quoteId) ≠ [] :=
      distinctKeep_ne_nil _ (by simp [h])
    have hne : ¬ (([] : List ArtifactOut).length
        = (distinctKeep (qs.map fun q => q.quoteId)).length) := by
      simp only [List.length_nil]
      intro h0
      exact hlen (List.length_eq_zero.mp h0.symm)
    simp only [decide_eq_false hne, Bool.false_and]
  · simp [h]

/-- With a non-empty expected list and no outputs, the chunk half of the
validation fails on the count check. -/
theorem chunksValidate_no_outputs (cs : List ShortRow) (h : cs ≠ []) :
    ∀ (snap : List ShortRow) (marker : Int), chunksValidate snap cs [] marker = false := by
  intro snap marker
  unfold chunksValidate
  rw [if_neg]
  · have hlen : distinctKeep (cs.map fun c => c.chunkId) ≠ [] :=
      distinctKeep_ne_nil _ (by simp [h])
    have hne : ¬ (([] : List ArtifactOut).length
        = (distinctKeep (cs.map fun c => c.chunkId)).length) := by
      simp only [List.length_nil]
      intro h0
      exact hlen (List.length_eq_zero.mp h0.symm)
    simp only [decide_eq_false hne, Bool.false_and]
  · simp [h]

/-- Claim C7 (amended): when the source video cannot be downloaded, the
artifact step returns empty result lists instead of raising, the
independent validation then fails for every pending category (output
count 0 against a non-empty pending set) on both attempts, and the run
returns `NotReady` — not `Failed`. -/
theorem c7_download_failure_returns_notready (env : PipelineEnv) (pi : PInfo)
    (qs : List QuoteRow) (cs : List ShortRow)
    (hdl : env.downloadOk = false) (hpend : qs ≠ [] ∨ cs ≠ []) :
    artifactPhase env pi qs cs =
      { outcome := .notReady, metrics := [], flagCalls := [] } := by
  have hpass : artifactValidationPasses env qs cs = false := by
    rcases hpend with hq | hc
    · have hne : qs.isEmpty = false := by
        cases qs with
        | nil => exact absurd rfl hq
        | cons a l => rfl
      simp [artifactValidationPasses, processArtifactsUnified, validateDbUpdates, hdl, hne,
        quotesValidate_no_outputs qs hq]
    · have hne : cs.isEmpty = false := by
        cases cs with
        | nil => exact absurd rfl hc
        | cons a l => rfl
      simp [artifactValidationPasses, processArtifactsUnified, validateDbUpdates, hdl, hne,
        chunksValidate_no_outputs cs hc]
  simp [artifactPhase, hpass]

/-- Counterexample to claim C7 as stated: with the source-video download
failing, the full pipeline run returns `NotReady`, not `Failed`. -/
theorem c7_download_failure_counterexample :
    runPipeline c7Env =
      { outcome := .notReady, metrics := [], flagCalls := [] } ∧
    (runPipeline c7Env).outcome ≠ .failed := by
  constructor <;> decide

/-- Witness for the amended C7 at the concrete environment. -/
theorem c7_download_failure_returns_notready_witness :
    artifactPhase c7Env
        { chunkingDone := false, quotingDone := true
          videoChunkingDone := false, videoQuotingDone := false }
        c7Env.store.quotes [] =
      { outcome := .notReady, metrics := [], flagCalls := [] } :=
  c7_download_failure_returns_notready c7Env
    { chunkingDone := false, quotingDone := true
      videoChunkingDone := false, videoQuotingDone := false }
    c7Env.store.quotes [] rfl (Or.inl (by decide))

end VAPE
